import Mathlib

/-
Verification development for the prayer-time calculator in src/Prayer.py.

The Python source is shallowly embedded as follows.

* julian_day works on Python ints and floats.  The float constant 365.25 is
  exactly representable in binary, so int(365.25 * (year + 4716)) is exact
  float arithmetic for all years of interest and is modelled by exact
  rational arithmetic.  The float closest to 30.6001 differs from the
  decimal value by less than 4e-15, and for the arguments month + 1 that
  occur after the month shift (integers 4..15) the product 30.6001 * (m+1)
  is at distance at least 4e-4 from every integer, so float truncation and
  exact rational truncation agree; int() (truncation toward zero) is
  modelled by truncInt, and Python // (floor division) by Int division,
  which in Lean is euclidean division and agrees with floor division for
  the positive divisors 100 and 4 that occur.
* The trigonometric pipeline (solar_declination, equation_of_time,
  solar_noon, the body of asr_time) is modelled over the real numbers.
  Python's float modulo x % y for y > 0 is x - y * floor (x / y), modelled
  by fmod; math.atan2 is modelled by the piecewise definition atan2 with
  the usual quadrant conventions; math.radians and math.degrees are the
  evident scalings.
* Failure is modelled with Except PyError.  datetime(y, mo, d, hr, mn)
  validates the date, then the hour (0..23), then the minute (0..59), and
  raises ValueError at the first violation; pytz.timezone raises
  UnknownTimeZoneError for an identifier missing from the timezone
  database, which is modelled abstractly as a predicate db : String → Bool.
  In asr_time the datetime constructor on line 57 runs before the
  pytz.timezone lookup on line 58; in last_third_time the pytz.timezone
  lookup on line 63 runs before anything else.
* last_third_time receives "HH:MM" strings already parsed by
  strptime("%H:%M") into an (hour, minute) pair with hour < 24 and
  minute < 60, and its timedelta arithmetic is exact in microseconds:
  night_duration * 2 is exact, and timedelta division by 3 rounds
  microseconds half to even, which is exact here because the duration is a
  whole number of minutes, making night_duration * 2 a multiple of
  120000000 microseconds and hence divisible by 3.  strftime("%H:%M")
  prints the wall-clock hour and minute, discarding seconds and the date.
  Datetime arithmetic past datetime.max raises OverflowError, which in
  last_third_time can happen only in the dawn-rollover branch at the
  maximal reference date 9999-12-31; the model reports that path as an
  explicit error.
-/

/-- Python int() on an exact rational: truncation toward zero. -/
def truncInt (q : ℚ) : ℤ := if q < 0 then ⌈q⌉ else ⌊q⌋

/-- A Gregorian calendar date as the int triple a Python datetime carries. -/
structure Date where
  year : ℤ
  month : ℤ
  day : ℤ
deriving DecidableEq

/-- src/Prayer.py lines 7-14: Gregorian date to Julian Day (a .5 fraction,
so the value is modelled exactly in ℚ). -/
def julian_day (year month day : ℤ) : ℚ :=
  let y : ℤ := if month ≤ 2 then year - 1 else year
  let m : ℤ := if month ≤ 2 then month + 12 else month
  let A : ℤ := y / 100
  let B : ℤ := 2 - A + A / 4
  (truncInt ((365.25 : ℚ) * ((y : ℚ) + 4716)) : ℚ)
    + (truncInt ((30.6001 : ℚ) * ((m : ℚ) + 1)) : ℚ)
    + (day : ℚ) + (B : ℚ) - 1524.5

/-- Gregorian leap-year rule, as Python's calendar/datetime implement it. -/
def isLeap (y : ℤ) : Prop := y % 4 = 0 ∧ (y % 100 ≠ 0 ∨ y % 400 = 0)

instance (y : ℤ) : Decidable (isLeap y) := by unfold isLeap; infer_instance

/-- Number of days of a month, Gregorian calendar. -/
def daysInMonth (y m : ℤ) : ℤ :=
  if m = 2 then (if isLeap y then 29 else 28)
  else if m = 4 ∨ m = 6 ∨ m = 9 ∨ m = 11 then 30 else 31

/-- The dates representable by a Python datetime: year 1..9999 and a real
Gregorian month/day combination. -/
def validDate (d : Date) : Prop :=
  1 ≤ d.year ∧ d.year ≤ 9999 ∧ 1 ≤ d.month ∧ d.month ≤ 12 ∧
    1 ≤ d.day ∧ d.day ≤ daysInMonth d.year d.month

instance (d : Date) : Decidable (validDate d) := by unfold validDate; infer_instance

/-- Successor of a calendar date. -/
def nextDay (d : Date) : Date :=
  if d.day < daysInMonth d.year d.month then ⟨d.year, d.month, d.day + 1⟩
  else if d.month < 12 then ⟨d.year, d.month + 1, 1⟩
  else ⟨d.year + 1, 1, 1⟩

/-- Errors the relevant Python library calls can raise: ValueError from the
datetime constructor (split by the first offending field),
pytz.UnknownTimeZoneError from pytz.timezone, and OverflowError from
datetime arithmetic whose result would exceed datetime.max. -/
inductive PyError where
  | invalidDate : PyError
  | hourOutOfRange : PyError
  | minuteOutOfRange : PyError
  | unknownTimezone : PyError
  | dateOverflow : PyError
deriving DecidableEq

/-- src/Prayer.py lines 60-74, after strptime has parsed the two "HH:MM"
strings into hour/minute pairs: the wall-clock hour and minute printed by
last_third.strftime("%H:%M").  All arithmetic is in whole microseconds
exactly as Python's timedelta performs it (exact here, see header). -/
def lastThirdHM (sunset fajr : ℕ × ℕ) : ℕ × ℕ :=
  let ss : ℕ := 3600 * sunset.1 + 60 * sunset.2
  let fs0 : ℕ := 3600 * fajr.1 + 60 * fajr.2
  let fs : ℕ := if fs0 ≤ ss then fs0 + 86400 else fs0
  let durUs : ℕ := (fs - ss) * 1000000
  let lastUs : ℕ := ss * 1000000 + durUs * 2 / 3
  let totalS : ℕ := lastUs / 1000000
  ((totalS % 86400) / 3600, (totalS % 3600) / 60)

/-- Modelled from the spec (night-fraction contract, section 4.6): attach
the date, move dawn to the next day when dawn ≤ sunset as a bare
time-of-day, take sunset + (dawn − sunset) × 2/3 over exact rationals in
minutes, and truncate to the displayed whole minute.  Used as the
independent reference the implementation is compared against. -/
def lastThirdSpecHM (sunset fajr : ℕ × ℕ) : ℕ × ℕ :=
  let S : ℚ := 60 * sunset.1 + sunset.2
  let F0 : ℚ := 60 * fajr.1 + fajr.2
  let F : ℚ := if F0 ≤ S then F0 + 1440 else F0
  let R : ℚ := S + (F - S) * 2 / 3
  let Rm : ℤ := ⌊R⌋
  (((Rm % 1440) / 60).toNat, ((Rm % 1440) % 60).toNat)

/-- Two-digit zero-padded decimal, as strftime prints hours and minutes. -/
def twoDigits (n : ℕ) : String := if n < 10 then "0" ++ toString n else toString n

/-- "%H:%M" formatting of an (hour, minute) pair. -/
def fmtHHMM (hm : ℕ × ℕ) : String := twoDigits hm.1 ++ ":" ++ twoDigits hm.2

/-- src/Prayer.py lines 60-74: last_third_time.  The pytz.timezone lookup
on line 63 runs first and raises for an unknown identifier; the
datetime.replace on lines 65-66 validates the reference date; when the
dawn-rollover branch on lines 69-70 fires (dawn ≤ sunset as a bare
time-of-day) the addition fajr + timedelta(days=1) raises OverflowError
exactly when the reference date is the maximal representable date
9999-12-31, since the result would exceed datetime.max (in the other
branch last_third < fajr stays on the reference date, and with an earlier
reference date sunset + duration * 2/3 stays below the next day's end, so
no other datetime arithmetic here can overflow); the looked-up timezone
object is never used afterwards, and strftime("%H:%M") discards the date,
so a successful result depends only on the two parsed times. -/
def last_third_time (db : String → Bool) (sunset fajr : ℕ × ℕ) (tz : String)
    (d : Date) : Except PyError String :=
  if db tz then
    if validDate d then
      if 3600 * fajr.1 + 60 * fajr.2 ≤ 3600 * sunset.1 + 60 * sunset.2 ∧
          d = ⟨9999, 12, 31⟩ then
        Except.error PyError.dateOverflow
      else Except.ok (fmtHHMM (lastThirdHM sunset fajr))
    else Except.error PyError.invalidDate
  else Except.error PyError.unknownTimezone

/-- A timezone database in which every identifier resolves. -/
def dbAll : String → Bool := fun _ => true

/-- A timezone database in which no identifier resolves. -/
def dbNone : String → Bool := fun _ => false

noncomputable section

/-- math.radians. -/
def radians (x : ℝ) : ℝ := x * (Real.pi / 180)

/-- math.degrees. -/
def degrees (x : ℝ) : ℝ := x * (180 / Real.pi)

/-- Python float modulo x % y (for y > 0: the representative in [0, y)). -/
def fmod (x y : ℝ) : ℝ := x - y * ⌊x / y⌋

/-- math.atan2 with the usual quadrant conventions (signed zeros, which ℝ
does not have, are irrelevant to the uses below). -/
def atan2 (y x : ℝ) : ℝ :=
  if 0 < x then Real.arctan (y / x)
  else if x < 0 ∧ 0 ≤ y then Real.arctan (y / x) + Real.pi
  else if x < 0 ∧ y < 0 then Real.arctan (y / x) - Real.pi
  else if x = 0 ∧ 0 < y then Real.pi / 2
  else if x = 0 ∧ y < 0 then -(Real.pi / 2)
  else 0

/-- Python int() on a float value: truncation toward zero. -/
def pyTrunc (x : ℝ) : ℤ := if x < 0 then ⌈x⌉ else ⌊x⌋

/-- src/Prayer.py line 17 and line 26: n = JD - 2451545.0. -/
def nDays (JD : ℝ) : ℝ := JD - 2451545.0

/-- src/Prayer.py line 18 and line 27: mean anomaly, in radians. -/
def gRad (JD : ℝ) : ℝ := radians (fmod (357.529 + 0.98560028 * nDays JD) 360)

/-- src/Prayer.py line 19 and line 28: mean longitude, in degrees. -/
def qDeg (JD : ℝ) : ℝ := fmod (280.459 + 0.98564736 * nDays JD) 360

/-- src/Prayer.py line 20 and line 29: apparent ecliptic longitude, degrees. -/
def LDeg (JD : ℝ) : ℝ :=
  fmod (qDeg JD + 1.915 * Real.sin (gRad JD) + 0.020 * Real.sin (2 * gRad JD)) 360

/-- src/Prayer.py line 21 and line 30: obliquity of the ecliptic, radians. -/
def eRad (JD : ℝ) : ℝ := radians (23.439 - 0.00000036 * nDays JD)

/-- src/Prayer.py lines 16-23: solar declination in radians. -/
def solar_declination (JD : ℝ) : ℝ :=
  Real.arcsin (Real.sin (eRad JD) * Real.sin (radians (LDeg JD)))

/-- src/Prayer.py line 31: right ascension in degrees, normalized by % 360. -/
def RADeg (JD : ℝ) : ℝ :=
  fmod (degrees (atan2 (Real.cos (eRad JD) * Real.sin (radians (LDeg JD)))
    (Real.cos (radians (LDeg JD))))) 360

/-- src/Prayer.py lines 32-36: equation of time in hours after the single
add/subtract-24 normalization step. -/
def eqTimeHours (JD : ℝ) : ℝ :=
  let t := qDeg JD / 15 - RADeg JD / 15
  if 12 < t then t - 24 else if t < -12 then t + 24 else t

/-- src/Prayer.py lines 25-37: equation of time in minutes. -/
def equation_of_time (JD : ℝ) : ℝ := eqTimeHours JD * 60

/-- Modelled from the spec (solar position contract, sections 4.2 and C7's
formula list), written out independently of the implementation above so the
two can be compared. -/
def solar_declination_spec (JD : ℝ) : ℝ :=
  let n := JD - 2451545.0
  let g := radians (fmod (357.529 + 0.98560028 * n) 360)
  let q := fmod (280.459 + 0.98564736 * n) 360
  let L := fmod (q + 1.915 * Real.sin g + 0.020 * Real.sin (2 * g)) 360
  let e := radians (23.439 - 0.00000036 * n)
  Real.arcsin (Real.sin e * Real.sin (radians L))

/-- src/Prayer.py lines 39-42: local solar noon as a UTC decimal hour. -/
def solar_noon (longitude JD : ℝ) : ℝ :=
  12 - longitude / 15 - equation_of_time JD / 60

/-- src/Prayer.py line 49: Asr altitude angle atan(1 / shadow_len). -/
def asrAngle (shadow_len : ℝ) : ℝ := Real.arctan (1 / shadow_len)

/-- src/Prayer.py line 50: the raw hour-angle cosine before clamping. -/
def cosH_raw (lat JD shadow_len : ℝ) : ℝ :=
  (Real.sin (asrAngle shadow_len) -
      Real.sin (radians lat) * Real.sin (solar_declination JD)) /
    (Real.cos (radians lat) * Real.cos (solar_declination JD))

/-- src/Prayer.py line 51: cosH = min(1, max(-1, cosH)). -/
def cosH (lat JD shadow_len : ℝ) : ℝ := min 1 (max (-1) (cosH_raw lat JD shadow_len))

/-- src/Prayer.py lines 52-54: Asr time in UTC decimal hours,
noon + degrees(acos(cosH)) / 15. -/
def asr_utc (lat lon JD shadow_len : ℝ) : ℝ :=
  solar_noon lon JD + degrees (Real.arccos (cosH lat JD shadow_len)) / 15

/-- src/Prayer.py line 55: hr = int(asr_utc). -/
def asrHr (lat lon : ℝ) (d : Date) (shadow_len : ℝ) : ℤ :=
  pyTrunc (asr_utc lat lon ((julian_day d.year d.month d.day : ℚ) : ℝ) shadow_len)

/-- src/Prayer.py line 56: mn = int((asr_utc - hr) * 60). -/
def asrMn (lat lon : ℝ) (d : Date) (shadow_len : ℝ) : ℤ :=
  pyTrunc ((asr_utc lat lon ((julian_day d.year d.month d.day : ℚ) : ℝ) shadow_len -
    (asrHr lat lon d shadow_len : ℝ)) * 60)

/-- src/Prayer.py lines 44-58: asr_time up to the construction of the UTC
datetime.  The datetime constructor on line 57 validates date, hour and
minute in that order and raises ValueError at the first violation; only
then does pytz.timezone(tz) on line 58 run, raising for an unknown
identifier.  On success the value carries the UTC clock fields that the
final astimezone/strftime pair would render. -/
def asr_time (db : String → Bool) (lat lon : ℝ) (d : Date) (shadow_len : ℝ)
    (tz : String) : Except PyError (ℤ × ℤ) :=
  let hr : ℤ := asrHr lat lon d shadow_len
  let mn : ℤ := asrMn lat lon d shadow_len
  if ¬ validDate d then Except.error PyError.invalidDate
  else if ¬ (0 ≤ hr ∧ hr ≤ 23) then Except.error PyError.hourOutOfRange
  else if ¬ (0 ≤ mn ∧ mn ≤ 59) then Except.error PyError.minuteOutOfRange
  else if db tz then Except.ok (hr, mn)
  else Except.error PyError.unknownTimezone

end

/-- Python float modulo with a positive divisor lands in [0, divisor). -/
lemma fmod_bounds (x : ℝ) : 0 ≤ fmod x 360 ∧ fmod x 360 < 360 := by
  unfold fmod
  have h1 : (⌊x / 360⌋ : ℝ) ≤ x / 360 := Int.floor_le _
  have h2 : x / 360 < ⌊x / 360⌋ + 1 := Int.lt_floor_add_one _
  constructor <;> nlinarith

/-- C3: for every Julian Day input, the equation-of-time value in hours,
q/15 − RA/15 after the single add/subtract-24 normalization step, lies
within [-12, 12] before the final multiplication by 60 that converts it to
minutes. -/
theorem equation_of_time_normalized (JD : ℝ) :
    -12 ≤ eqTimeHours JD ∧ eqTimeHours JD ≤ 12 ∧
      equation_of_time JD = eqTimeHours JD * 60 := by
  have hq : 0 ≤ qDeg JD ∧ qDeg JD < 360 := by unfold qDeg; exact fmod_bounds _
  have hra : 0 ≤ RADeg JD ∧ RADeg JD < 360 := by unfold RADeg; exact fmod_bounds _
  obtain ⟨hq0, hq1⟩ := hq
  obtain ⟨hr0, hr1⟩ := hra
  refine ⟨?_, ?_, rfl⟩ <;>
    · simp only [eqTimeHours]
      split_ifs with h1 h2 <;> linarith

/-- C1: in asr_time the hour-angle cosine argument is clamped into [-1, 1]
before acos is applied, so for every latitude in [-66, 66], every date and
every positive shadow length the inverse cosine receives an in-domain
argument and the acos step cannot raise a numeric-domain error. -/
theorem asr_cosH_clamped_in_domain (lat JD shadow_len : ℝ)
    (hlat1 : -66 ≤ lat) (hlat2 : lat ≤ 66) (hshadow : 0 < shadow_len) :
    -1 ≤ cosH lat JD shadow_len ∧ cosH lat JD shadow_len ≤ 1 := by
  unfold cosH
  exact ⟨le_min (by norm_num) (le_max_left _ _), min_le_left _ _⟩

/-- Witness for C1 at latitude 0, shadow length 1, date 2024-01-01. -/
theorem asr_cosH_clamped_in_domain_witness :
    (-66 ≤ (0 : ℝ) ∧ (0 : ℝ) ≤ 66 ∧ (0 : ℝ) < 1) ∧
      -1 ≤ cosH 0 ((julian_day 2024 1 1 : ℚ) : ℝ) 1 ∧
        cosH 0 ((julian_day 2024 1 1 : ℚ) : ℝ) 1 ≤ 1 := by
  refine ⟨⟨by norm_num, by norm_num, by norm_num⟩, ?_⟩
  exact asr_cosH_clamped_in_domain 0 _ 1 (by norm_num) (by norm_num) (by norm_num)

/-- C7: solar_declination computes exactly the spec's formula chain
n, g, q, L, ε, δ = asin(sin ε · sin L), and each of the three modulo
results (the degree argument of g, the mean longitude q, and the apparent
longitude L) is normalized into [0°, 360°) before trigonometric use, for
every real Julian Day, so in particular also for dates before J2000 where
n is negative. -/
theorem solar_declination_matches_spec (JD : ℝ) :
    solar_declination JD = solar_declination_spec JD ∧
      gRad JD = radians (fmod (357.529 + 0.98560028 * nDays JD) 360) ∧
      0 ≤ fmod (357.529 + 0.98560028 * nDays JD) 360 ∧
      fmod (357.529 + 0.98560028 * nDays JD) 360 < 360 ∧
      0 ≤ qDeg JD ∧ qDeg JD < 360 ∧ 0 ≤ LDeg JD ∧ LDeg JD < 360 := by
  refine ⟨rfl, rfl, ?_⟩
  have h1 := fmod_bounds (357.529 + 0.98560028 * nDays JD)
  have h2 : 0 ≤ qDeg JD ∧ qDeg JD < 360 := by unfold qDeg; exact fmod_bounds _
  have h3 : 0 ≤ LDeg JD ∧ LDeg JD < 360 := by unfold LDeg; exact fmod_bounds _
  exact ⟨h1.1, h1.2, h2.1, h2.2, h3.1, h3.2⟩

/-- C8: solar_noon returns exactly 12 − longitude/15 − eqt/60 as a UTC
decimal hour, and under the east-positive longitude convention it is
antitone in the longitude. -/
theorem solar_noon_formula (lon₁ lon₂ JD : ℝ) (h : lon₁ ≤ lon₂) :
    solar_noon lon₁ JD = 12 - lon₁ / 15 - equation_of_time JD / 60 ∧
      solar_noon lon₂ JD ≤ solar_noon lon₁ JD := by
  refine ⟨rfl, ?_⟩
  unfold solar_noon
  have h15 : lon₁ / 15 ≤ lon₂ / 15 := by linarith
  linarith

/-- Witness for C8 at longitudes 0 and 15 and Julian Day 2451545. -/
theorem solar_noon_formula_witness :
    (0 : ℝ) ≤ 15 ∧
      solar_noon 0 2451545 = 12 - 0 / 15 - equation_of_time 2451545 / 60 ∧
      solar_noon 15 2451545 ≤ solar_noon 0 2451545 :=
  ⟨by norm_num, solar_noon_formula 0 15 2451545 (by norm_num)⟩

/-- C10: last_third_time only checks that the timezone identifier resolves
in the timezone database; the result string is the same for every valid
identifier, with the other arguments held fixed. -/
theorem last_third_time_tz_invariant (db : String → Bool) (tz₁ tz₂ : String)
    (sunset fajr : ℕ × ℕ) (d : Date) (h₁ : db tz₁ = true) (h₂ : db tz₂ = true) :
    last_third_time db sunset fajr tz₁ d = last_third_time db sunset fajr tz₂ d := by
  unfold last_third_time
  rw [h₁, h₂]

/-- Witness for C10: two distinct valid identifiers give the same result. -/
theorem last_third_time_tz_invariant_witness :
    dbAll "UTC" = true ∧ dbAll "Asia/Riyadh" = true ∧
      last_third_time dbAll (18, 0) (4, 0) "UTC" ⟨2024, 1, 1⟩ =
        last_third_time dbAll (18, 0) (4, 0) "Asia/Riyadh" ⟨2024, 1, 1⟩ :=
  ⟨rfl, rfl, last_third_time_tz_invariant dbAll _ _ _ _ _ rfl rfl⟩

/-- Seconds-granularity truncation to HH:MM agrees with minutes-granularity
truncation of the exact rational value: bridging fact between the
implementation arithmetic and the spec formula. -/
lemma nightFractionBridge (Sn k : ℕ) :
    ((60 * Sn + 40 * k) % 86400 / 3600, (60 * Sn + 40 * k) % 3600 / 60) =
      ((((Sn : ℤ) * 3 + 2 * k) / 3 % 1440 / 60).toNat,
        (((Sn : ℤ) * 3 + 2 * k) / 3 % 1440 % 60).toNat) := by
  have hq := Nat.div_add_mod (2 * k) 3
  have h60 : 60 * Sn + 40 * k = 60 * (Sn + 2 * k / 3) + 20 * (2 * k % 3) := by omega
  rw [h60]
  have hspec : ((Sn : ℤ) * 3 + 2 * k) / 3 = ((Sn + 2 * k / 3 : ℕ) : ℤ) := by omega
  rw [hspec]
  have hmod1 : (60 * (Sn + 2 * k / 3) + 20 * (2 * k % 3)) % 86400 =
      60 * ((Sn + 2 * k / 3) % 1440) + 20 * (2 * k % 3) := by omega
  have hmod2 : (60 * (Sn + 2 * k / 3) + 20 * (2 * k % 3)) % 3600 =
      60 * ((Sn + 2 * k / 3) % 60) + 20 * (2 * k % 3) := by omega
  rw [hmod1, hmod2, Prod.mk.injEq]
  constructor
  · have hdiv1 : (60 * ((Sn + 2 * k / 3) % 1440) + 20 * (2 * k % 3)) / 3600 =
        ((Sn + 2 * k / 3) % 1440) / 60 := by omega
    rw [hdiv1]
    omega
  · have hdiv2 : (60 * ((Sn + 2 * k / 3) % 60) + 20 * (2 * k % 3)) / 60 =
        (Sn + 2 * k / 3) % 60 := by omega
    rw [hdiv2]
    have hmm2 : ((Sn + 2 * k / 3 : ℕ) : ℤ) % 1440 % 60 =
        ((Sn + 2 * k / 3 : ℕ) : ℤ) % 60 := by omega
    rw [hmm2]
    omega

/-- The implementation's microsecond arithmetic agrees with the exact
rational night-fraction formula for every strptime-representable pair of
clock times. -/
lemma lastThirdHM_eq_spec (sh sm fh fm : ℕ) (hsh : sh < 24) (hsm : sm < 60)
    (hfh : fh < 24) (hfm : fm < 60) :
    lastThirdHM (sh, sm) (fh, fm) = lastThirdSpecHM (sh, sm) (fh, fm) := by
  simp only [lastThirdHM, lastThirdSpecHM]
  have hequiv : ((60 * (fh : ℚ) + (fm : ℚ)) ≤ 60 * (sh : ℚ) + (sm : ℚ)) ↔
      (3600 * fh + 60 * fm ≤ 3600 * sh + 60 * sm) := by
    rw [show (3600 * fh + 60 * fm ≤ 3600 * sh + 60 * sm) ↔
        ((3600 * fh + 60 * fm : ℕ) : ℚ) ≤ ((3600 * sh + 60 * sm : ℕ) : ℚ) from
      Nat.cast_le.symm]
    push_cast
    constructor <;> intro h <;> linarith
  rw [if_congr hequiv rfl rfl]
  split_ifs with hc
  · have hle : 60 * sh + sm ≤ 60 * fh + fm + 1440 := by omega
    have h2 : ((3600 * sh + 60 * sm) * 1000000 +
        (3600 * fh + 60 * fm + 86400 - (3600 * sh + 60 * sm)) * 1000000 * 2 / 3) /
          1000000 =
        60 * (60 * sh + sm) + 40 * (60 * fh + fm + 1440 - (60 * sh + sm)) := by omega
    rw [h2]
    have h3 : (60 * (sh : ℚ) + (sm : ℚ)) +
        ((60 * (fh : ℚ) + (fm : ℚ) + 1440) - (60 * (sh : ℚ) + (sm : ℚ))) * 2 / 3 =
        ((((60 * sh + sm : ℕ) : ℤ) * 3 +
          2 * ((60 * fh + fm + 1440 - (60 * sh + sm) : ℕ) : ℤ) : ℤ) : ℚ) /
          ((3 : ℕ) : ℚ) := by
      push_cast [hle]
      ring
    rw [h3, Rat.floor_intCast_div_natCast]
    simp only [Nat.cast_ofNat]
    exact nightFractionBridge (60 * sh + sm) (60 * fh + fm + 1440 - (60 * sh + sm))
  · have hle : 60 * sh + sm ≤ 60 * fh + fm := by omega
    have h2 : ((3600 * sh + 60 * sm) * 1000000 +
        (3600 * fh + 60 * fm - (3600 * sh + 60 * sm)) * 1000000 * 2 / 3) / 1000000 =
        60 * (60 * sh + sm) + 40 * (60 * fh + fm - (60 * sh + sm)) := by omega
    rw [h2]
    have h3 : (60 * (sh : ℚ) + (sm : ℚ)) +
        ((60 * (fh : ℚ) + (fm : ℚ)) - (60 * (sh : ℚ) + (sm : ℚ))) * 2 / 3 =
        ((((60 * sh + sm : ℕ) : ℤ) * 3 +
          2 * ((60 * fh + fm - (60 * sh + sm) : ℕ) : ℤ) : ℤ) : ℚ) /
          ((3 : ℕ) : ℚ) := by
      push_cast [hle]
      ring
    rw [h3, Rat.floor_intCast_div_natCast]
    simp only [Nat.cast_ofNat]
    exact nightFractionBridge (60 * sh + sm) (60 * fh + fm - (60 * sh + sm))

/-- Counterexample for C2 as stated: at the maximal representable
reference date 9999-12-31 with dawn 04:00 ≤ sunset 18:00, the dawn
rollover overflows the datetime range and last_third_time fails with
OverflowError instead of returning the formatted night fraction 00:40. -/
theorem last_third_time_overflow_counterexample :
    validDate ⟨9999, 12, 31⟩ ∧ dbAll "UTC" = true ∧
      last_third_time dbAll (18, 0) (4, 0) "UTC" ⟨9999, 12, 31⟩ =
        Except.error PyError.dateOverflow ∧
      Except.error PyError.dateOverflow ≠
        (Except.ok "00:40" : Except PyError String) :=
  ⟨by decide, rfl, rfl, fun h => Except.noConfusion h⟩

/-- C2 (amended): last_third_time moves dawn to the following day whenever
dawn ≤ sunset as a bare time-of-day (equality included, giving a 24-hour
night, so the result is then sunset plus 16 hours) and returns sunset +
(dawn − sunset) × 2/3 formatted as HH:MM — in particular mapping sunset
18:00 / dawn 04:00 to 00:40 and sunset 19:30 / dawn 05:00 to 01:50 —
except when the reference date is the maximal representable date
9999-12-31 and the rollover fires, where moving dawn to the following day
overflows the datetime range and the operation fails with OverflowError. -/
theorem last_third_time_spec_correct (db : String → Bool) (tz : String) (d : Date)
    (sh sm fh fm : ℕ) (htz : db tz = true) (hd : validDate d) (hsh : sh < 24)
    (hsm : sm < 60) (hfh : fh < 24) (hfm : fm < 60)
    (hover : ¬(3600 * fh + 60 * fm ≤ 3600 * sh + 60 * sm ∧ d = ⟨9999, 12, 31⟩)) :
    last_third_time db (sh, sm) (fh, fm) tz d =
        Except.ok (fmtHHMM (lastThirdSpecHM (sh, sm) (fh, fm))) ∧
      (3600 * fh + 60 * fm ≤ 3600 * sh + 60 * sm →
        last_third_time db (sh, sm) (fh, fm) tz ⟨9999, 12, 31⟩ =
          Except.error PyError.dateOverflow) ∧
      (sh = fh → sm = fm → lastThirdHM (sh, sm) (fh, fm) = ((sh + 16) % 24, sm)) ∧
      last_third_time dbAll (18, 0) (4, 0) "UTC" ⟨2024, 1, 1⟩ = Except.ok "00:40" ∧
      last_third_time dbAll (19, 30) (5, 0) "UTC" ⟨2024, 1, 1⟩ = Except.ok "01:50" := by
  refine ⟨?_, ?_, ?_, ?_, ?_⟩
  · simp [last_third_time, htz, hd, hover,
      lastThirdHM_eq_spec sh sm fh fm hsh hsm hfh hfm]
  · intro hrol
    simp only [last_third_time]
    rw [if_pos htz, if_pos (by decide : validDate ⟨9999, 12, 31⟩),
      if_pos ⟨hrol, trivial⟩]
  · intro h1 h2
    subst h1; subst h2
    simp only [lastThirdHM]
    rw [if_pos (le_refl (3600 * sh + 60 * sm))]
    have h3 : ((3600 * sh + 60 * sm) * 1000000 +
        (3600 * sh + 60 * sm + 86400 - (3600 * sh + 60 * sm)) * 1000000 * 2 / 3) /
          1000000 = 3600 * sh + 60 * sm + 57600 := by omega
    rw [h3, Prod.mk.injEq]
    constructor <;> omega
  · rfl
  · rfl

/-- Witness for C2 at sunset 18:00, dawn 04:00, a valid timezone and the
reference date 2024-01-01, which is not the overflow date. -/
theorem last_third_time_spec_correct_witness :
    (dbAll "UTC" = true ∧ validDate ⟨2024, 1, 1⟩ ∧ 18 < 24 ∧ 0 < 60 ∧ 4 < 24 ∧
      ¬(3600 * 4 + 60 * 0 ≤ 3600 * 18 + 60 * 0 ∧
        (⟨2024, 1, 1⟩ : Date) = ⟨9999, 12, 31⟩)) ∧
      last_third_time dbAll (18, 0) (4, 0) "UTC" ⟨2024, 1, 1⟩ =
        Except.ok (fmtHHMM (lastThirdSpecHM (18, 0) (4, 0))) :=
  ⟨⟨rfl, by decide, by decide, by decide, by decide, by decide⟩,
    (last_third_time_spec_correct dbAll "UTC" ⟨2024, 1, 1⟩ 18 0 4 0 rfl (by decide)
      (by decide) (by decide) (by decide) (by decide) (by decide)).1⟩

/-- int(365.25 * Y) for nonnegative Y is the integer division 1461 * Y / 4. -/
lemma trunc1461 (Y : ℤ) (hY : 0 ≤ Y) :
    truncInt ((365.25 : ℚ) * (Y : ℚ)) = 1461 * Y / 4 := by
  have h1 : (365.25 : ℚ) * (Y : ℚ) = ((1461 * Y : ℤ) : ℚ) / ((4 : ℕ) : ℚ) := by
    push_cast
    ring
  have h2 : ¬ (((1461 * Y : ℤ) : ℚ) / ((4 : ℕ) : ℚ) < 0) := by
    refine not_lt.mpr (div_nonneg ?_ (by norm_num))
    exact_mod_cast (by omega : (0 : ℤ) ≤ 1461 * Y)
  rw [truncInt, h1, if_neg h2, Rat.floor_intCast_div_natCast]
  norm_num

/-- int(30.6001 * M) for nonnegative M is the integer division
306001 * M / 10000. -/
lemma trunc306001 (M : ℤ) (hM : 0 ≤ M) :
    truncInt ((30.6001 : ℚ) * (M : ℚ)) = 306001 * M / 10000 := by
  have h1 : (30.6001 : ℚ) * (M : ℚ) = ((306001 * M : ℤ) : ℚ) / ((10000 : ℕ) : ℚ) := by
    push_cast
    ring
  have h2 : ¬ (((306001 * M : ℤ) : ℚ) / ((10000 : ℕ) : ℚ) < 0) := by
    refine not_lt.mpr (div_nonneg ?_ (by norm_num))
    exact_mod_cast (by omega : (0 : ℤ) ≤ 306001 * M)
  rw [truncInt, h1, if_neg h2, Rat.floor_intCast_div_natCast]
  norm_num

/-- Closed integer form of julian_day for January and February. -/
lemma julian_day_eq_early (year month day : ℤ) (hy : -4715 ≤ year)
    (hm : 1 ≤ month) (h2 : month ≤ 2) :
    julian_day year month day =
      ((1461 * (year + 4715) / 4 + 306001 * (month + 13) / 10000 + day +
        (2 - (year - 1) / 100 + (year - 1) / 100 / 4) : ℤ) : ℚ) - 1524.5 := by
  simp only [julian_day]
  rw [if_pos h2, if_pos h2]
  rw [show (((year - 1 : ℤ)) : ℚ) + 4716 = (((year + 4715 : ℤ)) : ℚ) from by
    push_cast; ring]
  rw [show (((month + 12 : ℤ)) : ℚ) + 1 = (((month + 13 : ℤ)) : ℚ) from by
    push_cast; ring]
  rw [trunc1461 _ (by omega), trunc306001 _ (by omega)]
  push_cast
  ring

/-- Closed integer form of julian_day for March through December. -/
lemma julian_day_eq_late (year month day : ℤ) (hy : -4716 ≤ year)
    (hm : 3 ≤ month) (h12 : month ≤ 12) :
    julian_day year month day =
      ((1461 * (year + 4716) / 4 + 306001 * (month + 1) / 10000 + day +
        (2 - year / 100 + year / 100 / 4) : ℤ) : ℚ) - 1524.5 := by
  simp only [julian_day]
  rw [if_neg (by omega), if_neg (by omega)]
  rw [show ((year : ℤ) : ℚ) + 4716 = (((year + 4716 : ℤ)) : ℚ) from by
    push_cast; ring]
  rw [show ((month : ℤ) : ℚ) + 1 = (((month + 1 : ℤ)) : ℚ) from by
    push_cast; ring]
  rw [trunc1461 _ (by omega), trunc306001 _ (by omega)]
  push_cast
  ring

/-- Casting a successor relation on the integer parts through the final
subtraction of 1524.5. -/
lemma castStep (a b : ℤ) (hab : a = b + 1) :
    (a : ℚ) - 1524.5 = (b : ℚ) - 1524.5 + 1 := by
  subst hab
  push_cast
  ring

/-- C5: for every valid Gregorian date (as representable by a Python
datetime), julian_day of the next calendar day exceeds julian_day of the
given day by exactly 1; the model computes julian_day exactly, so the
difference is exactly 1 with no floating-point error at all. -/
theorem julian_day_succ (d : Date) (h : validDate d) :
    julian_day (nextDay d).year (nextDay d).month (nextDay d).day =
      julian_day d.year d.month d.day + 1 := by
  obtain ⟨y, m, dy⟩ := d
  simp only [validDate] at h
  obtain ⟨hy1, hy2, hm1, hm2, hd1, hd2⟩ := h
  by_cases hlt : dy < daysInMonth y m
  · simp only [nextDay, if_pos hlt]
    by_cases hm2' : m ≤ 2
    · rw [julian_day_eq_early y m (dy + 1) (by omega) hm1 hm2',
        julian_day_eq_early y m dy (by omega) hm1 hm2']
      exact castStep _ _ (by omega)
    · rw [julian_day_eq_late y m (dy + 1) (by omega) (by omega) hm2,
        julian_day_eq_late y m dy (by omega) (by omega) hm2]
      exact castStep _ _ (by omega)
  · by_cases hm12 : m < 12
    · simp only [nextDay, if_neg hlt, if_pos hm12]
      interval_cases m
      · have hdy : dy = 31 := by simp [daysInMonth] at hd2 hlt; omega
        subst hdy
        norm_num only
        rw [julian_day_eq_early y 2 1 (by omega) (by norm_num) (by norm_num),
          julian_day_eq_early y 1 31 (by omega) (by norm_num) (by norm_num)]
        exact castStep _ _ (by omega)
      · by_cases hl : isLeap y
        · have hdy : dy = 29 := by simp [daysInMonth, if_pos hl] at hd2 hlt; omega
          subst hdy
          norm_num only
          rw [julian_day_eq_late y 3 1 (by omega) (by norm_num) (by norm_num),
            julian_day_eq_early y 2 29 (by omega) (by norm_num) (by norm_num)]
          simp only [isLeap] at hl
          obtain ⟨ha, hb⟩ := hl
          rcases hb with hb | hb <;> exact castStep _ _ (by omega)
        · have hdy : dy = 28 := by simp [daysInMonth, if_neg hl] at hd2 hlt; omega
          subst hdy
          norm_num only
          rw [julian_day_eq_late y 3 1 (by omega) (by norm_num) (by norm_num),
            julian_day_eq_early y 2 28 (by omega) (by norm_num) (by norm_num)]
          have hsplit : y % 4 = 1 ∨ y % 4 = 2 ∨ y % 4 = 3 ∨
              (y % 100 = 0 ∧ y % 400 ≠ 0) := by
            simp only [isLeap] at hl
            by_cases h4 : y % 4 = 0
            · refine Or.inr (Or.inr (Or.inr ⟨?_, ?_⟩))
              · by_contra h100
                exact hl ⟨h4, Or.inl h100⟩
              · intro h400
                exact hl ⟨h4, Or.inr h400⟩
            · omega
          rcases hsplit with h | h | h | ⟨h1' , h2'⟩ <;> exact castStep _ _ (by omega)
      · have hdy : dy = 31 := by simp [daysInMonth] at hd2 hlt; omega
        subst hdy
        norm_num only
        rw [julian_day_eq_late y 4 1 (by omega) (by norm_num) (by norm_num),
          julian_day_eq_late y 3 31 (by omega) (by norm_num) (by norm_num)]
        exact castStep _ _ (by omega)
      · have hdy : dy = 30 := by simp [daysInMonth] at hd2 hlt; omega
        subst hdy
        norm_num only
        rw [julian_day_eq_late y 5 1 (by omega) (by norm_num) (by norm_num),
          julian_day_eq_late y 4 30 (by omega) (by norm_num) (by norm_num)]
        exact castStep _ _ (by omega)
      · have hdy : dy = 31 := by simp [daysInMonth] at hd2 hlt; omega
        subst hdy
        norm_num only
        rw [julian_day_eq_late y 6 1 (by omega) (by norm_num) (by norm_num),
          julian_day_eq_late y 5 31 (by omega) (by norm_num) (by norm_num)]
        exact castStep _ _ (by omega)
      · have hdy : dy = 30 := by simp [daysInMonth] at hd2 hlt; omega
        subst hdy
        norm_num only
        rw [julian_day_eq_late y 7 1 (by omega) (by norm_num) (by norm_num),
          julian_day_eq_late y 6 30 (by omega) (by norm_num) (by norm_num)]
        exact castStep _ _ (by omega)
      · have hdy : dy = 31 := by simp [daysInMonth] at hd2 hlt; omega
        subst hdy
        norm_num only
        rw [julian_day_eq_late y 8 1 (by omega) (by norm_num) (by norm_num),
          julian_day_eq_late y 7 31 (by omega) (by norm_num) (by norm_num)]
        exact castStep _ _ (by omega)
      · have hdy : dy = 31 := by simp [daysInMonth] at hd2 hlt; omega
        subst hdy
        norm_num only
        rw [julian_day_eq_late y 9 1 (by omega) (by norm_num) (by norm_num),
          julian_day_eq_late y 8 31 (by omega) (by norm_num) (by norm_num)]
        exact castStep _ _ (by omega)
      · have hdy : dy = 30 := by simp [daysInMonth] at hd2 hlt; omega
        subst hdy
        norm_num only
        rw [julian_day_eq_late y 10 1 (by omega) (by norm_num) (by norm_num),
          julian_day_eq_late y 9 30 (by omega) (by norm_num) (by norm_num)]
        exact castStep _ _ (by omega)
      · have hdy : dy = 31 := by simp [daysInMonth] at hd2 hlt; omega
        subst hdy
        norm_num only
        rw [julian_day_eq_late y 11 1 (by omega) (by norm_num) (by norm_num),
          julian_day_eq_late y 10 31 (by omega) (by norm_num) (by norm_num)]
        exact castStep _ _ (by omega)
      · have hdy : dy = 30 := by simp [daysInMonth] at hd2 hlt; omega
        subst hdy
        norm_num only
        rw [julian_day_eq_late y 12 1 (by omega) (by norm_num) (by norm_num),
          julian_day_eq_late y 11 30 (by omega) (by norm_num) (by norm_num)]
        exact castStep _ _ (by omega)
    · simp only [nextDay, if_neg hlt, if_neg hm12]
      have hm' : m = 12 := by omega
      subst hm'
      have hdy : dy = 31 := by simp [daysInMonth] at hd2 hlt; omega
      subst hdy
      rw [julian_day_eq_early (y + 1) 1 1 (by omega) (by norm_num) (by norm_num),
        julian_day_eq_late y 12 31 (by omega) (by norm_num) (by norm_num)]
      rw [show (y + 1 - 1 : ℤ) = y from by ring, show (y + 1 + 4715 : ℤ) = y + 4716 from by ring]
      exact castStep _ _ (by omega)

/-- Witness for C5 at the leap-year month boundary 2024-02-29. -/
theorem julian_day_succ_witness :
    validDate ⟨2024, 2, 29⟩ ∧
      julian_day (nextDay ⟨2024, 2, 29⟩).year (nextDay ⟨2024, 2, 29⟩).month
        (nextDay ⟨2024, 2, 29⟩).day = julian_day 2024 2 29 + 1 :=
  ⟨by decide, julian_day_succ ⟨2024, 2, 29⟩ (by decide)⟩

/-- degrees inverts radians. -/
lemma degrees_radians (t : ℝ) : degrees (radians t) = t := by
  unfold degrees radians
  have hpi := Real.pi_ne_zero
  field_simp

/-- radians is strictly monotone. -/
lemma radians_strictMono : StrictMono radians := by
  intro a b h
  unfold radians
  have hpi := Real.pi_pos
  nlinarith

/-- Pinning the float modulo when the quotient is a known integer. -/
lemma fmod_eq_sub_int (x : ℝ) (k : ℤ) (h1 : 360 * k ≤ x) (h2 : x < 360 * (k + 1)) :
    fmod x 360 = x - 360 * k := by
  unfold fmod
  rw [show (⌊x / 360⌋ : ℤ) = k from by
    rw [Int.floor_eq_iff]
    constructor
    · rw [le_div_iff₀ (by norm_num : (0 : ℝ) < 360)]
      linarith
    · rw [div_lt_iff₀ (by norm_num : (0 : ℝ) < 360)]
      linarith]

/-- Python int() agrees with the floor on nonnegative values. -/
lemma pyTrunc_of_nonneg (x : ℝ) (h : 0 ≤ x) : pyTrunc x = ⌊x⌋ :=
  if_neg (not_lt.mpr h)

/-- The minute field int((u - int(u)) * 60) lies in 0..59 when u ≥ 0. -/
lemma minute_field_range (u : ℝ) (h : 0 ≤ u) :
    0 ≤ pyTrunc ((u - (pyTrunc u : ℝ)) * 60) ∧
      pyTrunc ((u - (pyTrunc u : ℝ)) * 60) ≤ 59 := by
  rw [pyTrunc_of_nonneg u h]
  have h1 : (⌊u⌋ : ℝ) ≤ u := Int.floor_le u
  have h2 : u < ⌊u⌋ + 1 := Int.lt_floor_add_one u
  have h3 : 0 ≤ (u - (⌊u⌋ : ℝ)) * 60 := by nlinarith
  rw [pyTrunc_of_nonneg _ h3]
  constructor
  · positivity
  · have : (u - (⌊u⌋ : ℝ)) * 60 < 60 := by nlinarith
    have := Int.floor_lt.mpr (by push_cast; linarith : (u - (⌊u⌋ : ℝ)) * 60 < ((60 : ℤ) : ℝ))
    omega

/-- The clamped cosine always lies in the arccos domain. -/
lemma cosH_mem (lat JD shadow_len : ℝ) :
    -1 ≤ cosH lat JD shadow_len ∧ cosH lat JD shadow_len ≤ 1 := by
  unfold cosH
  exact ⟨le_min (by norm_num) (le_max_left _ _), min_le_left _ _⟩

/-- C6: with the hour-angle denominator positive (true whenever the
latitude is strictly between the poles and the declination is a proper
angle), a larger shadow length gives a smaller altitude angle, a smaller
clamped cosH, a larger hour angle, and hence a later Asr instant; the
truncated display minutes inherit the ordering. -/
theorem asr_utc_shadow_monotone (lat lon JD s₁ s₂ : ℝ) (hs : 0 < s₁) (h12 : s₁ ≤ s₂)
    (hlat : 0 < Real.cos (radians lat)) (hdecl : 0 < Real.cos (solar_declination JD)) :
    asr_utc lat lon JD s₁ ≤ asr_utc lat lon JD s₂ ∧
      ⌊60 * asr_utc lat lon JD s₁⌋ ≤ ⌊60 * asr_utc lat lon JD s₂⌋ := by
  have hs2 : 0 < s₂ := lt_of_lt_of_le hs h12
  have hinv : 1 / s₂ ≤ 1 / s₁ := one_div_le_one_div_of_le hs h12
  have hat : asrAngle s₂ ≤ asrAngle s₁ := by
    unfold asrAngle
    exact (Real.arctan_strictMono.le_iff_le).mpr hinv
  have hmem₁ : asrAngle s₁ ∈ Set.Icc (-(Real.pi / 2)) (Real.pi / 2) :=
    ⟨le_of_lt (Real.neg_pi_div_two_lt_arctan _), le_of_lt (Real.arctan_lt_pi_div_two _)⟩
  have hmem₂ : asrAngle s₂ ∈ Set.Icc (-(Real.pi / 2)) (Real.pi / 2) :=
    ⟨le_of_lt (Real.neg_pi_div_two_lt_arctan _), le_of_lt (Real.arctan_lt_pi_div_two _)⟩
  have hsin : Real.sin (asrAngle s₂) ≤ Real.sin (asrAngle s₁) :=
    Real.strictMonoOn_sin.monotoneOn hmem₂ hmem₁ hat
  have hD : 0 < Real.cos (radians lat) * Real.cos (solar_declination JD) :=
    mul_pos hlat hdecl
  have hraw : cosH_raw lat JD s₂ ≤ cosH_raw lat JD s₁ := by
    unfold cosH_raw
    exact (div_le_div_iff_of_pos_right hD).mpr (sub_le_sub_right hsin _)
  have hclamp : cosH lat JD s₂ ≤ cosH lat JD s₁ := by
    unfold cosH
    exact min_le_min (le_refl 1) (max_le_max (le_refl (-1)) hraw)
  have harc : Real.arccos (cosH lat JD s₁) ≤ Real.arccos (cosH lat JD s₂) := by
    rw [Real.arccos_eq_pi_div_two_sub_arcsin, Real.arccos_eq_pi_div_two_sub_arcsin]
    exact sub_le_sub_left (Real.monotone_arcsin hclamp) _
  have hdeg : degrees (Real.arccos (cosH lat JD s₁)) ≤
      degrees (Real.arccos (cosH lat JD s₂)) := by
    unfold degrees
    have hfac : 0 ≤ 180 / Real.pi := by positivity
    exact mul_le_mul_of_nonneg_right harc hfac
  have hmain : asr_utc lat lon JD s₁ ≤ asr_utc lat lon JD s₂ := by
    unfold asr_utc
    linarith
  exact ⟨hmain, Int.floor_le_floor (by linarith)⟩

/-- julian_day at the reference date 2000-02-23 (52.5 days after J2000). -/
lemma jd_feb23 : julian_day 2000 2 23 = (2451597.5 : ℚ) := by
  rw [julian_day_eq_early 2000 2 23 (by norm_num) (by norm_num) (by norm_num)]
  rw [show (1461 * (2000 + 4715) / 4 + 306001 * (2 + 13) / 10000 + 23 +
      (2 - (2000 - 1) / 100 + (2000 - 1) / 100 / 4) : ℤ) = 2453122 from by decide]
  norm_num

/-- The same value read as a real number. -/
lemma jd_feb23_real : ((julian_day 2000 2 23 : ℚ) : ℝ) = 2451597.5 := by
  rw [jd_feb23]
  norm_num

lemma nDays_feb : nDays 2451597.5 = 52.5 := by
  unfold nDays
  norm_num

/-- Mean anomaly at the reference date: 49.2730147 degrees. -/
lemma gRad_feb : gRad 2451597.5 = radians 49.2730147 := by
  unfold gRad
  rw [nDays_feb]
  rw [show (357.529 + 0.98560028 * (52.5 : ℝ)) = 409.2730147 from by norm_num]
  rw [fmod_eq_sub_int 409.2730147 1 (by norm_num) (by norm_num)]
  norm_num

/-- The mean anomaly lies between 30 and 90 degrees, so its sine is at
least one half. -/
lemma sin_gRad_feb : 1 / 2 ≤ Real.sin (gRad 2451597.5) ∧ Real.sin (gRad 2451597.5) ≤ 1 := by
  rw [gRad_feb]
  refine ⟨?_, Real.sin_le_one _⟩
  have hpi := Real.pi_pos
  have hmem1 : radians 30 ∈ Set.Icc (-(Real.pi / 2)) (Real.pi / 2) := by
    unfold radians
    constructor <;> nlinarith
  have hmem2 : radians 49.2730147 ∈ Set.Icc (-(Real.pi / 2)) (Real.pi / 2) := by
    unfold radians
    constructor <;> nlinarith
  have h30 : radians 30 = Real.pi / 6 := by
    unfold radians
    ring
  calc 1 / 2 = Real.sin (Real.pi / 6) := Real.sin_pi_div_six.symm
    _ = Real.sin (radians 30) := by rw [h30]
    _ ≤ Real.sin (radians 49.2730147) :=
        Real.strictMonoOn_sin.monotoneOn hmem1 hmem2
          (radians_strictMono.le_iff_le.mpr (by norm_num))

/-- Mean longitude at the reference date: 332.2054864 degrees. -/
lemma qDeg_feb : qDeg 2451597.5 = 332.2054864 := by
  unfold qDeg
  rw [nDays_feb]
  rw [show (280.459 + 0.98564736 * (52.5 : ℝ)) = 332.2054864 from by norm_num]
  rw [fmod_eq_sub_int 332.2054864 0 (by norm_num) (by norm_num)]
  norm_num

/-- Apparent ecliptic longitude at the reference date stays in the fourth
quadrant, between 333.14 and 334.15 degrees. -/
lemma LDeg_feb_bounds : 333.14 ≤ LDeg 2451597.5 ∧ LDeg 2451597.5 ≤ 334.15 := by
  obtain ⟨hg1, hg2⟩ := sin_gRad_feb
  have hs2a : -1 ≤ Real.sin (2 * gRad 2451597.5) := Real.neg_one_le_sin _
  have hs2b : Real.sin (2 * gRad 2451597.5) ≤ 1 := Real.sin_le_one _
  unfold LDeg
  rw [qDeg_feb]
  rw [fmod_eq_sub_int
    (332.2054864 + 1.915 * Real.sin (gRad 2451597.5) +
      0.020 * Real.sin (2 * gRad 2451597.5)) 0
    (by push_cast; nlinarith) (by push_cast; nlinarith)]
  push_cast
  constructor <;> nlinarith

/-- Obliquity at the reference date: 23.4389811 degrees. -/
lemma eRad_feb : eRad 2451597.5 = radians 23.4389811 := by
  unfold eRad
  rw [nDays_feb]
  rw [show (23.439 - 0.00000036 * (52.5 : ℝ)) = 23.4389811 from by norm_num]

lemma eRad_feb_mem : 0 < eRad 2451597.5 ∧ eRad 2451597.5 < Real.pi / 2 := by
  rw [eRad_feb]
  unfold radians
  have hpi := Real.pi_pos
  constructor <;> nlinarith

lemma cos_eRad_feb : 0 < Real.cos (eRad 2451597.5) ∧ Real.cos (eRad 2451597.5) < 1 := by
  obtain ⟨h1, h2⟩ := eRad_feb_mem
  have hpi := Real.pi_pos
  constructor
  · exact Real.cos_pos_of_mem_Ioo ⟨by linarith, h2⟩
  · have hmem0 : (0 : ℝ) ∈ Set.Icc (0 : ℝ) Real.pi := ⟨le_refl 0, by linarith⟩
    have hmeme : eRad 2451597.5 ∈ Set.Icc (0 : ℝ) Real.pi := ⟨h1.le, by linarith⟩
    have := Real.strictAntiOn_cos hmem0 hmeme h1
    rw [Real.cos_zero] at this
    exact this

lemma sin_eRad_feb : 0 < Real.sin (eRad 2451597.5) ∧ Real.sin (eRad 2451597.5) < 1 := by
  obtain ⟨h1, h2⟩ := eRad_feb_mem
  have hpi := Real.pi_pos
  constructor
  · exact Real.sin_pos_of_pos_of_lt_pi h1 (by linarith)
  · have hmeme : eRad 2451597.5 ∈ Set.Icc (-(Real.pi / 2)) (Real.pi / 2) :=
      ⟨by linarith, h2.le⟩
    have hmemp : (Real.pi / 2) ∈ Set.Icc (-(Real.pi / 2)) (Real.pi / 2) :=
      ⟨by linarith, le_refl _⟩
    have := Real.strictMonoOn_sin hmeme hmemp h2
    rw [Real.sin_pi_div_two] at this
    exact this

/-- The declination cosine is strictly positive at the reference date. -/
lemma cos_decl_feb : 0 < Real.cos (solar_declination 2451597.5) := by
  unfold solar_declination
  obtain ⟨hse1, hse2⟩ := sin_eRad_feb
  have habs : |Real.sin (radians (LDeg 2451597.5))| ≤ 1 :=
    abs_le.mpr ⟨Real.neg_one_le_sin _, Real.sin_le_one _⟩
  have hv1 : |Real.sin (eRad 2451597.5) * Real.sin (radians (LDeg 2451597.5))| < 1 := by
    rw [abs_mul]
    calc |Real.sin (eRad 2451597.5)| * |Real.sin (radians (LDeg 2451597.5))| ≤
        |Real.sin (eRad 2451597.5)| * 1 :=
          mul_le_mul_of_nonneg_left habs (abs_nonneg _)
      _ = |Real.sin (eRad 2451597.5)| := mul_one _
      _ < 1 := by rw [abs_of_pos hse1]; exact hse2
  rw [Real.cos_arcsin]
  apply Real.sqrt_pos.mpr
  obtain ⟨ha, hb⟩ := abs_lt.mp hv1
  nlinarith

/-- The radian image of L minus one full turn lies in (-pi/2, 0). -/
lemma phi_feb : -(Real.pi / 2) < radians (LDeg 2451597.5 - 360) ∧
    radians (LDeg 2451597.5 - 360) < 0 := by
  obtain ⟨hL1, hL2⟩ := LDeg_feb_bounds
  unfold radians
  have hpi := Real.pi_pos
  constructor <;> nlinarith

/-- Fourth-quadrant signs of the apparent longitude at the reference date. -/
lemma L_quadrant_feb : 0 < Real.cos (radians (LDeg 2451597.5)) ∧
    Real.sin (radians (LDeg 2451597.5)) < 0 := by
  obtain ⟨hφ1, hφ2⟩ := phi_feb
  have hpi := Real.pi_pos
  have hshift : radians (LDeg 2451597.5) = radians (LDeg 2451597.5 - 360) + 2 * Real.pi := by
    unfold radians
    ring
  constructor
  · rw [hshift, Real.cos_add_two_pi]
    exact Real.cos_pos_of_mem_Ioo ⟨hφ1, by linarith⟩
  · rw [hshift, Real.sin_add_two_pi]
    exact Real.sin_neg_of_neg_of_neg_pi_lt hφ2 (by linarith)

/-- The right ascension at the reference date exceeds the apparent
longitude and stays below 360 degrees. -/
lemma RADeg_feb_bounds : LDeg 2451597.5 < RADeg 2451597.5 ∧ RADeg 2451597.5 < 360 := by
  obtain ⟨hL1, hL2⟩ := LDeg_feb_bounds
  obtain ⟨hcL, hsL⟩ := L_quadrant_feb
  obtain ⟨hce1, hce2⟩ := cos_eRad_feb
  obtain ⟨hφ1, hφ2⟩ := phi_feb
  have hpi := Real.pi_pos
  have hshift : radians (LDeg 2451597.5) = radians (LDeg 2451597.5 - 360) + 2 * Real.pi := by
    unfold radians
    ring
  have hcφ : 0 < Real.cos (radians (LDeg 2451597.5 - 360)) := by
    rw [hshift, Real.cos_add_two_pi] at hcL
    exact hcL
  have hsφ : Real.sin (radians (LDeg 2451597.5 - 360)) < 0 := by
    rw [hshift, Real.sin_add_two_pi] at hsL
    exact hsL
  have htan : Real.tan (radians (LDeg 2451597.5 - 360)) < 0 := by
    rw [Real.tan_eq_sin_div_cos]
    exact div_neg_of_neg_of_pos hsφ hcφ
  have harg : Real.cos (eRad 2451597.5) * Real.sin (radians (LDeg 2451597.5)) /
      Real.cos (radians (LDeg 2451597.5)) =
      Real.cos (eRad 2451597.5) * Real.tan (radians (LDeg 2451597.5 - 360)) := by
    rw [hshift, Real.sin_add_two_pi, Real.cos_add_two_pi, Real.tan_eq_sin_div_cos]
    ring
  have hgt : Real.tan (radians (LDeg 2451597.5 - 360)) <
      Real.cos (eRad 2451597.5) * Real.tan (radians (LDeg 2451597.5 - 360)) := by
    nlinarith
  have hlt0 : Real.cos (eRad 2451597.5) * Real.tan (radians (LDeg 2451597.5 - 360)) < 0 :=
    mul_neg_of_pos_of_neg hce1 htan
  have harctan_gt : radians (LDeg 2451597.5 - 360) <
      Real.arctan (Real.cos (eRad 2451597.5) * Real.tan (radians (LDeg 2451597.5 - 360))) := by
    calc radians (LDeg 2451597.5 - 360)
        = Real.arctan (Real.tan (radians (LDeg 2451597.5 - 360))) :=
          (Real.arctan_tan hφ1 (by linarith)).symm
      _ < _ := Real.arctan_strictMono hgt
  have harctan_lt : Real.arctan (Real.cos (eRad 2451597.5) *
      Real.tan (radians (LDeg 2451597.5 - 360))) < 0 := by
    have h := Real.arctan_strictMono hlt0
    rw [Real.arctan_zero] at h
    exact h
  have hatan2 : atan2 (Real.cos (eRad 2451597.5) * Real.sin (radians (LDeg 2451597.5)))
      (Real.cos (radians (LDeg 2451597.5))) =
      Real.arctan (Real.cos (eRad 2451597.5) * Real.tan (radians (LDeg 2451597.5 - 360))) := by
    unfold atan2
    rw [if_pos hcL, harg]
  have hfac : (0 : ℝ) < 180 / Real.pi := by positivity
  have hdeg_gt : LDeg 2451597.5 - 360 <
      degrees (Real.arctan (Real.cos (eRad 2451597.5) *
        Real.tan (radians (LDeg 2451597.5 - 360)))) := by
    have h := mul_lt_mul_of_pos_right harctan_gt hfac
    have h2 : radians (LDeg 2451597.5 - 360) * (180 / Real.pi) =
        degrees (radians (LDeg 2451597.5 - 360)) := rfl
    rw [h2, degrees_radians] at h
    exact h
  have hdeg_lt : degrees (Real.arctan (Real.cos (eRad 2451597.5) *
      Real.tan (radians (LDeg 2451597.5 - 360)))) < 0 := by
    unfold degrees
    exact mul_neg_of_neg_of_pos harctan_lt hfac
  unfold RADeg
  rw [hatan2]
  rw [fmod_eq_sub_int _ (-1) (by push_cast; linarith) (by push_cast; linarith)]
  push_cast
  constructor <;> linarith

/-- The equation of time is strictly negative (and above -2 hours) at the
reference date. -/
lemma eqTimeHours_feb : -2 < eqTimeHours 2451597.5 ∧ eqTimeHours 2451597.5 < 0 := by
  obtain ⟨hra1, hra2⟩ := RADeg_feb_bounds
  obtain ⟨hL1, hL2⟩ := LDeg_feb_bounds
  simp only [eqTimeHours]
  rw [qDeg_feb]
  rw [if_neg (by linarith), if_neg (by linarith)]
  constructor <;> linarith

/-- At longitude -180 the Asr instant in UTC decimal hours exceeds 24 at
the reference date, for every latitude and shadow length. -/
lemma asr_utc_lon180_feb (lat shadow_len : ℝ) :
    24 < asr_utc lat (-180) 2451597.5 shadow_len := by
  obtain ⟨he1, he2⟩ := eqTimeHours_feb
  have hfac : (0 : ℝ) ≤ 180 / Real.pi := by positivity
  have hH : 0 ≤ degrees (Real.arccos (cosH lat 2451597.5 shadow_len)) / 15 := by
    unfold degrees
    have h := Real.arccos_nonneg (cosH lat 2451597.5 shadow_len)
    have := mul_nonneg h hfac
    linarith
  unfold asr_utc solar_noon equation_of_time
  have h15 : ((-180 : ℝ)) / 15 = -12 := by norm_num
  rw [h15]
  have h60 : eqTimeHours 2451597.5 * 60 / 60 = eqTimeHours 2451597.5 := by ring
  rw [h60]
  linarith

/-- At longitude 0 the Asr instant lies strictly between 12 and 20 UTC
hours at the reference date, latitude 0, shadow length 1. -/
lemma asr_utc_lon0_feb_bounds :
    12 < asr_utc 0 0 2451597.5 1 ∧ asr_utc 0 0 2451597.5 1 < 20 := by
  obtain ⟨he1, he2⟩ := eqTimeHours_feb
  have hcos := cos_decl_feb
  have hraw : 0 ≤ cosH_raw 0 2451597.5 1 := by
    unfold cosH_raw asrAngle
    rw [show radians 0 = 0 from by unfold radians; ring]
    rw [Real.sin_zero, Real.cos_zero]
    have h1 : (0 : ℝ) < Real.sin (Real.arctan (1 / 1)) := by
      rw [show (1 / 1 : ℝ) = 1 from by norm_num, Real.arctan_one, Real.sin_pi_div_four]
      positivity
    apply div_nonneg
    · nlinarith
    · nlinarith
  have hcosH : 0 ≤ cosH 0 2451597.5 1 := by
    unfold cosH
    exact le_min (by norm_num) (le_trans hraw (le_max_right _ _))
  have harc : Real.arccos (cosH 0 2451597.5 1) ≤ Real.pi / 2 :=
    Real.arccos_le_pi_div_two.mpr hcosH
  have harc0 : 0 ≤ Real.arccos (cosH 0 2451597.5 1) := Real.arccos_nonneg _
  have hfac : (0 : ℝ) ≤ 180 / Real.pi := by positivity
  have hdeg : degrees (Real.arccos (cosH 0 2451597.5 1)) ≤ 90 := by
    unfold degrees
    have h1 := mul_le_mul_of_nonneg_right harc hfac
    have h2 : Real.pi / 2 * (180 / Real.pi) = 90 := by
      field_simp
      ring
    linarith
  have hdeg0 : 0 ≤ degrees (Real.arccos (cosH 0 2451597.5 1)) := by
    unfold degrees
    exact mul_nonneg harc0 hfac
  unfold asr_utc solar_noon equation_of_time
  have h60 : eqTimeHours 2451597.5 * 60 / 60 = eqTimeHours 2451597.5 := by ring
  rw [h60]
  constructor <;> nlinarith

/-- The truncated hour of asr_time at latitude 0, longitude -180, shadow
length 1, on 2000-02-23, is at least 24. -/
lemma asrHr_overflow_feb : 24 ≤ asrHr 0 (-180) ⟨2000, 2, 23⟩ 1 := by
  have hu : 24 < asr_utc 0 (-180) ((julian_day 2000 2 23 : ℚ) : ℝ) 1 := by
    rw [jd_feb23_real]
    exact asr_utc_lon180_feb 0 1
  simp only [asrHr]
  rw [pyTrunc_of_nonneg _ (by linarith)]
  exact Int.le_floor.mpr (by push_cast; linarith)

/-- The hour overflow makes the datetime constructor fail before the
timezone lookup, whatever the timezone database contains. -/
lemma asr_time_overflow_any (db : String → Bool) (tz : String) :
    asr_time db 0 (-180) ⟨2000, 2, 23⟩ 1 tz = Except.error PyError.hourOutOfRange := by
  have hhr := asrHr_overflow_feb
  simp only [asr_time]
  rw [if_neg (not_not_intro (by decide : validDate ⟨2000, 2, 23⟩))]
  rw [if_pos (by omega)]

/-- C9: a valid input inside the documented operating range (latitude 0,
longitude -180, date 2000-02-23, shadow length 1, valid timezone) drives
the truncated hour of asr_utc to 24 or more, and the datetime constructor
in asr_time rejects it, so asr_time fails. -/
theorem asr_time_hour_overflow :
    validDate ⟨2000, 2, 23⟩ ∧ (-66 : ℝ) ≤ 0 ∧ (0 : ℝ) ≤ 66 ∧ (-180 : ℝ) ≤ -180 ∧
      (-180 : ℝ) ≤ 180 ∧ (0 : ℝ) < 1 ∧ dbAll "UTC" = true ∧
      24 ≤ asrHr 0 (-180) ⟨2000, 2, 23⟩ 1 ∧
      asr_time dbAll 0 (-180) ⟨2000, 2, 23⟩ 1 "UTC" =
        Except.error PyError.hourOutOfRange :=
  ⟨by decide, by norm_num, by norm_num, le_refl _, by norm_num, by norm_num, rfl,
    asrHr_overflow_feb, asr_time_overflow_any dbAll "UTC"⟩

/-- Counterexample for C4 as stated: with an invalid timezone identifier,
asr_time at this input fails with the hour-range ValueError from the
datetime constructor, not with the unknown-timezone error. -/
theorem asr_time_invalid_tz_counterexample :
    dbNone "Mars/Phobos" = false ∧
      asr_time dbNone 0 (-180) ⟨2000, 2, 23⟩ 1 "Mars/Phobos" =
        Except.error PyError.hourOutOfRange ∧
      PyError.hourOutOfRange ≠ PyError.unknownTimezone :=
  ⟨rfl, asr_time_overflow_any dbNone "Mars/Phobos", by decide⟩

/-- C4 (amended): an invalid timezone identifier always makes both
operations fail with an error that propagates (never a silent fallback);
for last_third_time the error is always the unknown-timezone error, and
for asr_time it is the unknown-timezone error whenever the datetime
construction succeeds (hour 0..23 and minute 0..59 after truncation). -/
theorem asr_time_invalid_tz_error :
    (∀ (db : String → Bool) (lat lon shadow_len : ℝ) (d : Date) (tz : String),
        db tz = false →
        ∃ e, asr_time db lat lon d shadow_len tz = Except.error e) ∧
    (∀ (db : String → Bool) (lat lon shadow_len : ℝ) (d : Date) (tz : String),
        db tz = false → validDate d →
        0 ≤ asrHr lat lon d shadow_len → asrHr lat lon d shadow_len ≤ 23 →
        0 ≤ asrMn lat lon d shadow_len → asrMn lat lon d shadow_len ≤ 59 →
        asr_time db lat lon d shadow_len tz = Except.error PyError.unknownTimezone) ∧
    (∀ (db : String → Bool) (sunset fajr : ℕ × ℕ) (tz : String) (d : Date),
        db tz = false →
        last_third_time db sunset fajr tz d = Except.error PyError.unknownTimezone) := by
  refine ⟨?_, ?_, ?_⟩
  · intro db lat lon shadow_len d tz htz
    simp only [asr_time]
    by_cases h1 : validDate d
    · rw [if_neg (not_not_intro h1)]
      by_cases h2 : 0 ≤ asrHr lat lon d shadow_len ∧ asrHr lat lon d shadow_len ≤ 23
      · rw [if_neg (not_not_intro h2)]
        by_cases h3 : 0 ≤ asrMn lat lon d shadow_len ∧ asrMn lat lon d shadow_len ≤ 59
        · rw [if_neg (not_not_intro h3), if_neg (by simp [htz])]
          exact ⟨_, rfl⟩
        · rw [if_pos h3]
          exact ⟨_, rfl⟩
      · rw [if_pos h2]
        exact ⟨_, rfl⟩
    · rw [if_pos h1]
      exact ⟨_, rfl⟩
  · intro db lat lon shadow_len d tz htz hd hh1 hh2 hm1 hm2
    simp only [asr_time]
    rw [if_neg (not_not_intro hd), if_neg (not_not_intro ⟨hh1, hh2⟩),
      if_neg (not_not_intro ⟨hm1, hm2⟩), if_neg (by simp [htz])]
  · intro db sunset fajr tz d htz
    simp only [last_third_time]
    rw [if_neg (by simp [htz])]

/-- Asr hour and minute fields are in the datetime range at latitude 0,
longitude 0, 2000-02-23, shadow length 1. -/
lemma asrHrMn_lon0_feb :
    0 ≤ asrHr 0 0 ⟨2000, 2, 23⟩ 1 ∧ asrHr 0 0 ⟨2000, 2, 23⟩ 1 ≤ 23 ∧
      0 ≤ asrMn 0 0 ⟨2000, 2, 23⟩ 1 ∧ asrMn 0 0 ⟨2000, 2, 23⟩ 1 ≤ 59 := by
  have hu : 12 < asr_utc 0 0 ((julian_day 2000 2 23 : ℚ) : ℝ) 1 ∧
      asr_utc 0 0 ((julian_day 2000 2 23 : ℚ) : ℝ) 1 < 20 := by
    rw [jd_feb23_real]
    exact asr_utc_lon0_feb_bounds
  obtain ⟨hu1, hu2⟩ := hu
  have h0 : (0 : ℝ) ≤ asr_utc 0 0 ((julian_day 2000 2 23 : ℚ) : ℝ) 1 := by linarith
  have hmn := minute_field_range (asr_utc 0 0 ((julian_day 2000 2 23 : ℚ) : ℝ) 1) h0
  refine ⟨?_, ?_, ?_, ?_⟩
  · simp only [asrHr]
    rw [pyTrunc_of_nonneg _ h0]
    exact Int.le_floor.mpr (by push_cast; linarith)
  · simp only [asrHr]
    rw [pyTrunc_of_nonneg _ h0]
    have := Int.floor_lt.mpr (by push_cast; linarith :
      asr_utc 0 0 ((julian_day 2000 2 23 : ℚ) : ℝ) 1 < ((20 : ℤ) : ℝ))
    omega
  · simp only [asrMn, asrHr]
    exact hmn.1
  · simp only [asrMn, asrHr]
    exact hmn.2

/-- Witness for C4 at concrete inputs: an empty timezone database, the
reference date and benign coordinates. -/
theorem asr_time_invalid_tz_error_witness :
    (dbNone "UTC" = false ∧ validDate ⟨2000, 2, 23⟩) ∧
      (∃ e, asr_time dbNone 21 39 ⟨2000, 2, 23⟩ 1 "UTC" = Except.error e) ∧
      asr_time dbNone 0 0 ⟨2000, 2, 23⟩ 1 "UTC" =
        Except.error PyError.unknownTimezone ∧
      last_third_time dbNone (18, 0) (4, 0) "UTC" ⟨2024, 1, 1⟩ =
        Except.error PyError.unknownTimezone := by
  obtain ⟨q1, q2, q3, q4⟩ := asrHrMn_lon0_feb
  exact ⟨⟨rfl, by decide⟩,
    asr_time_invalid_tz_error.1 dbNone 21 39 1 ⟨2000, 2, 23⟩ "UTC" rfl,
    asr_time_invalid_tz_error.2.1 dbNone 0 0 1 ⟨2000, 2, 23⟩ "UTC" rfl (by decide)
      q1 q2 q3 q4,
    asr_time_invalid_tz_error.2.2 dbNone (18, 0) (4, 0) "UTC" ⟨2024, 1, 1⟩ rfl⟩

/-- The cosine of the Mecca latitude in radians is positive. -/
lemma cos_radians_mecca : 0 < Real.cos (radians 21.4225) := by
  have hpi := Real.pi_pos
  apply Real.cos_pos_of_mem_Ioo
  constructor <;> (unfold radians; nlinarith)

/-- Witness for C6 at Mecca (21.4225 N, 39.8262 E) on 2000-02-23 with
shadow lengths 1 and 2. -/
theorem asr_utc_shadow_monotone_witness :
    ((0 : ℝ) < 1 ∧ (1 : ℝ) ≤ 2 ∧ 0 < Real.cos (radians 21.4225) ∧
      0 < Real.cos (solar_declination ((julian_day 2000 2 23 : ℚ) : ℝ))) ∧
      asr_utc 21.4225 39.8262 ((julian_day 2000 2 23 : ℚ) : ℝ) 1 ≤
        asr_utc 21.4225 39.8262 ((julian_day 2000 2 23 : ℚ) : ℝ) 2 ∧
      ⌊60 * asr_utc 21.4225 39.8262 ((julian_day 2000 2 23 : ℚ) : ℝ) 1⌋ ≤
        ⌊60 * asr_utc 21.4225 39.8262 ((julian_day 2000 2 23 : ℚ) : ℝ) 2⌋ := by
  have hdecl : 0 < Real.cos (solar_declination ((julian_day 2000 2 23 : ℚ) : ℝ)) := by
    rw [jd_feb23_real]
    exact cos_decl_feb
  exact ⟨⟨by norm_num, by norm_num, cos_radians_mecca, hdecl⟩,
    asr_utc_shadow_monotone 21.4225 39.8262 _ 1 2 (by norm_num) (by norm_num)
      cos_radians_mecca hdecl⟩
